import Mathlib

/-!
Verification development for the StatsBomb event deserializer
(kloppy, src/kloppy/infra/serializers/event/statsbomb/deserializer.py).

The Python source is shallowly embedded: pure parsing helpers become Lean
functions, the stateful timeline-assembly loop becomes an explicit fold over
a loop state, and every fallible code path returns `Except`.  Python floats
are modelled as exact rationals (`ℚ`); the magic constant `0.001` becomes
`1/1000`.  String ids (`str(...)` conversions in the source) are modelled as
the underlying numeric ids, which is faithful because `str` is injective on
the non-negative integers appearing in the data.
-/

namespace StatsBomb

/-- The possible failures of the deserializer.  `deserializationError` embeds
kloppy's `DeserializationError`; the other constructors embed the Python
runtime errors the source can raise (`KeyError` for a missing dict key,
`AttributeError` for a missing object attribute, `TypeError` for
`float + None`, `ValueError`/`IndexError` for malformed location arrays). -/
inductive DeserErr where
  | deserializationError (msg : String)
  | keyError (key : String)
  | attributeError (attr : String)
  | typeError
  | valueError
  | indexError
deriving DecidableEq, Repr

/-- Decidable equality on `Except`, so concrete runs of the embedded
functions can be checked by `decide`. -/
instance {ε α : Type _} [DecidableEq ε] [DecidableEq α] :
    DecidableEq (Except ε α) := fun x y =>
  match x, y with
  | .ok a, .ok b =>
      if h : a = b then .isTrue (by rw [h])
      else .isFalse (fun hh => h (Except.ok.inj hh))
  | .error e, .error f =>
      if h : e = f then .isTrue (by rw [h])
      else .isFalse (fun hh => h (Except.error.inj hh))
  | .ok _, .error _ => .isFalse (fun hh => Except.noConfusion hh)
  | .error _, .ok _ => .isFalse (fun hh => Except.noConfusion hh)

-- Vendor event-category constants (deserializer.py lines 48-62).
def SB_EVENT_TYPE_RECOVERY : Nat := 2
def SB_EVENT_TYPE_DRIBBLE : Nat := 14
def SB_EVENT_TYPE_SHOT : Nat := 16
def SB_EVENT_TYPE_PASS : Nat := 30
def SB_EVENT_TYPE_CARRY : Nat := 43
def SB_EVENT_TYPE_HALF_START : Nat := 18
def SB_EVENT_TYPE_HALF_END : Nat := 34
def SB_EVENT_TYPE_STARTING_XI : Nat := 35
def SB_EVENT_TYPE_SUBSTITUTION : Nat := 19
def SB_EVENT_TYPE_FOUL_COMMITTED : Nat := 22
def SB_EVENT_TYPE_BAD_BEHAVIOUR : Nat := 24
def SB_EVENT_TYPE_PLAYER_ON : Nat := 26
def SB_EVENT_TYPE_PLAYER_OFF : Nat := 27

-- Pass outcome constants (lines 64-69).
def SB_PASS_OUTCOME_COMPLETE : Nat := 8
def SB_PASS_OUTCOME_INCOMPLETE : Nat := 9
def SB_PASS_OUTCOME_INJURY_CLEARANCE : Nat := 74
def SB_PASS_OUTCOME_OUT : Nat := 75
def SB_PASS_OUTCOME_OFFSIDE : Nat := 76
def SB_PASS_OUTCOME_UNKNOWN : Nat := 77

-- Shot outcome constants (lines 71-78).
def SB_SHOT_OUTCOME_BLOCKED : Nat := 96
def SB_SHOT_OUTCOME_GOAL : Nat := 97
def SB_SHOT_OUTCOME_OFF_TARGET : Nat := 98
def SB_SHOT_OUTCOME_POST : Nat := 99
def SB_SHOT_OUTCOME_SAVED : Nat := 100
def SB_SHOT_OUTCOME_OFF_WAYWARD : Nat := 101
def SB_SHOT_OUTCOME_SAVED_OFF_TARGET : Nat := 115
def SB_SHOT_OUTCOME_SAVED_TO_POST : Nat := 116

-- Set-piece type constants (lines 80-85).
def SB_EVENT_TYPE_FREE_KICK : Nat := 62
def SB_EVENT_TYPE_THROW_IN : Nat := 67
def SB_EVENT_TYPE_KICK_OFF : Nat := 65
def SB_EVENT_TYPE_CORNER_KICK : Nat := 61
def SB_EVENT_TYPE_PENALTY : Nat := 88
def SB_EVENT_TYPE_GOAL_KICK : Nat := 63

-- Body-part constants (lines 89-99).
def SB_BODYPART_BOTH_HANDS : Nat := 35
def SB_BODYPART_CHEST : Nat := 36
def SB_BODYPART_HEAD : Nat := 37
def SB_BODYPART_LEFT_FOOT : Nat := 38
def SB_BODYPART_LEFT_HAND : Nat := 39
def SB_BODYPART_RIGHT_FOOT : Nat := 40
def SB_BODYPART_RIGHT_HAND : Nat := 41
def SB_BODYPART_DROP_KICK : Nat := 68
def SB_BODYPART_KEEPER_ARM : Nat := 69
def SB_BODYPART_OTHER : Nat := 70
def SB_BODYPART_NO_TOUCH : Nat := 106

-- Domain enums imported from kloppy.domain (external collaborator types).
inductive PassResult where
  | COMPLETE | INCOMPLETE | OUT | OFFSIDE
deriving DecidableEq, Repr

inductive ShotResult where
  | GOAL | OFF_TARGET | POST | BLOCKED | SAVED
deriving DecidableEq, Repr

inductive TakeOnResult where
  | COMPLETE | INCOMPLETE | OUT
deriving DecidableEq, Repr

inductive CarryResult where
  | COMPLETE | INCOMPLETE
deriving DecidableEq, Repr

inductive CardType where
  | FIRST_YELLOW | SECOND_YELLOW | RED
deriving DecidableEq, Repr

inductive BallState where
  | ALIVE | DEAD
deriving DecidableEq, Repr

inductive Ground where
  | HOME | AWAY
deriving DecidableEq, Repr

inductive BodyPart where
  | BOTH_HANDS | CHEST | HEAD | LEFT_FOOT | LEFT_HAND | RIGHT_FOOT | RIGHT_HAND
  | DROP_KICK | KEEPER_ARM | OTHER | NO_TOUCH
deriving DecidableEq, Repr

inductive SetPieceType where
  | CORNER_KICK | FREE_KICK | PENALTY | THROW_IN | KICK_OFF | GOAL_KICK
deriving DecidableEq, Repr

/-- A qualifier attached to an event: either a set-piece tag or a body-part
tag (kloppy's `SetPieceQualifier` / `BodyPartQualifier`). -/
inductive Qualifier where
  | setPiece (value : SetPieceType)
  | bodyPart (value : BodyPart)
deriving DecidableEq, Repr

/-- Continuous pitch point (kloppy's `Point`).  Coordinates are exact
rationals standing in for Python floats. -/
structure Point where
  x : ℚ
  y : ℚ
deriving DecidableEq, Repr

/-- A player entity.  The Python object also holds a non-owning back
reference to its team, which is only used for identity and is omitted
here. -/
structure Player where
  player_id : Nat
  name : String
  jersey_no : Nat
  starting : Bool
deriving DecidableEq, Repr

/-- A team entity owning its player list. -/
structure Team where
  team_id : Nat
  name : String
  ground : Ground
  players : List Player
deriving DecidableEq, Repr

/-- A match period.  `end_timestamp` is `none` until the period is closed by
a second event carrying the same period number (Python: `None`). -/
structure Period where
  id : Nat
  start_timestamp : ℚ
  end_timestamp : Option ℚ
deriving DecidableEq, Repr

/-- The raw `HH:MM:SS[.ffffff]` timestamp string, already split into its
three components; the seconds component is a rational because the raw string
may carry a fractional part.  A well-formed raw string always yields
non-negative components (`h`, `m` are digit strings, `s` is a decimal). -/
structure RawTimestamp where
  h : Nat
  m : Nat
  s : ℚ
deriving DecidableEq, Repr

/-- Embedding of `parse_str_ts` (lines 102-104). -/
def parse_str_ts (timestamp : RawTimestamp) : ℚ :=
  (timestamp.h : ℚ) * 3600 + (timestamp.m : ℚ) * 60 + timestamp.s

/-- A `{"id": ..., "name": ...}` reference inside a raw sub-object. -/
structure OutcomeRef where
  id : Nat
  name : String
deriving DecidableEq, Repr

/-- The raw `pass` sub-object: optional outcome, optional recipient id,
the `end_location` array, and the two optional qualifier signals
(`type` set-piece code and `body_part` code). -/
structure PassDict where
  outcome : Option OutcomeRef
  recipient : Option Nat
  end_location : List ℚ
  type_id : Option Nat
  body_part_id : Option Nat
deriving DecidableEq, Repr

/-- The raw `shot` sub-object. -/
structure ShotDict where
  outcome : Option OutcomeRef
  type_id : Option Nat
  body_part_id : Option Nat
deriving DecidableEq, Repr

/-- The raw `dribble` sub-object. -/
structure DribbleDict where
  outcome : Option OutcomeRef
deriving DecidableEq, Repr

/-- The raw `carry` sub-object. -/
structure CarryDict where
  end_location : List ℚ
deriving DecidableEq, Repr

/-- The raw `substitution` sub-object (`replacement.id`). -/
structure SubstitutionDict where
  replacement_id : Nat
deriving DecidableEq, Repr

/-- A raw card reference (`card.id`). -/
structure CardDict where
  id : Nat
deriving DecidableEq, Repr

/-- The raw `bad_behaviour` / `foul_committed` sub-object: an optional
nested card. -/
structure CardCarrier where
  card : Option CardDict
deriving DecidableEq, Repr

/-- One raw vendor event record, holding exactly the fields the deserializer
reads.  Optional fields model dict keys that may be absent. -/
structure RawEvent where
  event_id : String
  type_id : Nat
  type_name : String
  timestamp : RawTimestamp
  period : Nat
  team_id : Nat
  possession_team_id : Nat
  player_id : Option Nat
  location : Option (List ℚ)
  duration : Option ℚ
  pass_dict : Option PassDict
  shot_dict : Option ShotDict
  dribble_dict : Option DribbleDict
  carry_dict : Option CarryDict
  substitution_dict : Option SubstitutionDict
  bad_behaviour_dict : Option CardCarrier
  foul_committed_dict : Option CardCarrier
  tactics_lineup : Option (List Nat)
deriving DecidableEq, Repr

/-- Embedding of Python `float.is_integer` on the rational model: a rational
is a whole number exactly when its reduced denominator is 1. -/
def is_integer (q : ℚ) : Bool := q.den == 1

/-- Embedding of `_parse_coordinates` (lines 107-122).  The raw location is
cell based; the output subtracts half a cell side.  Indexing a location
array with fewer than two components is a Python `IndexError`. -/
def _parse_coordinates (coordinates : List ℚ) (fidelity_version : Nat) :
    Except DeserErr Point :=
  let cell_side : ℚ := if fidelity_version = 2 then 1/10 else 1
  let cell_relative_center := cell_side / 2
  match coordinates with
  | x :: y :: _ =>
      .ok { x := x - cell_relative_center, y := y - cell_relative_center }
  | _ => .error .indexError

/-- Embedding of `_parse_bodypart` (lines 125-152), applied to the already
projected `body_part.id` code. -/
def _parse_bodypart (bodypart_id : Nat) : Except DeserErr BodyPart :=
  if bodypart_id = SB_BODYPART_BOTH_HANDS then .ok BodyPart.BOTH_HANDS
  else if bodypart_id = SB_BODYPART_CHEST then .ok BodyPart.CHEST
  else if bodypart_id = SB_BODYPART_HEAD then .ok BodyPart.HEAD
  else if bodypart_id = SB_BODYPART_LEFT_FOOT then .ok BodyPart.LEFT_FOOT
  else if bodypart_id = SB_BODYPART_LEFT_HAND then .ok BodyPart.LEFT_HAND
  else if bodypart_id = SB_BODYPART_RIGHT_FOOT then .ok BodyPart.RIGHT_FOOT
  else if bodypart_id = SB_BODYPART_RIGHT_HAND then .ok BodyPart.RIGHT_HAND
  else if bodypart_id = SB_BODYPART_DROP_KICK then .ok BodyPart.DROP_KICK
  else if bodypart_id = SB_BODYPART_KEEPER_ARM then .ok BodyPart.KEEPER_ARM
  else if bodypart_id = SB_BODYPART_OTHER then .ok BodyPart.OTHER
  else if bodypart_id = SB_BODYPART_NO_TOUCH then .ok BodyPart.NO_TOUCH
  else .error (.deserializationError ("Unknown body part: " ++ toString bodypart_id))

/-- Embedding of `_get_event_qualifiers` (lines 191-212), applied to the
two signals the source reads from the sub-object (`type.id` and
`body_part.id`). -/
def _get_event_qualifiers (type_id : Option Nat) (body_part_id : Option Nat) :
    Except DeserErr (List Qualifier) :=
  let qualifiers : List Qualifier :=
    match type_id with
    | some tid =>
        if tid = SB_EVENT_TYPE_CORNER_KICK then [Qualifier.setPiece SetPieceType.CORNER_KICK]
        else if tid = SB_EVENT_TYPE_FREE_KICK then [Qualifier.setPiece SetPieceType.FREE_KICK]
        else if tid = SB_EVENT_TYPE_PENALTY then [Qualifier.setPiece SetPieceType.PENALTY]
        else if tid = SB_EVENT_TYPE_THROW_IN then [Qualifier.setPiece SetPieceType.THROW_IN]
        else if tid = SB_EVENT_TYPE_KICK_OFF then [Qualifier.setPiece SetPieceType.KICK_OFF]
        else if tid = SB_EVENT_TYPE_GOAL_KICK then [Qualifier.setPiece SetPieceType.GOAL_KICK]
        else []
    | none => []
  match body_part_id with
  | some bid => do
      let bp ← _parse_bodypart bid
      .ok (qualifiers ++ [Qualifier.bodyPart bp])
  | none => .ok qualifiers

/-- Modelled from the spec: `Team.get_player_by_id` lives in the domain
package outside src/; the spec describes it as "id lookup within the acting
team's roster" with lookup failure a hard error (sections 4.3 and 4.5). -/
def Team.get_player_by_id (team : Team) (player_id : Nat) : Except DeserErr Player :=
  match team.players.find? (fun player => player.player_id == player_id) with
  | some player => .ok player
  | none => .error (.deserializationError ("Player " ++ toString player_id ++ " not found"))

/-- The bundle of normalized pass fields returned by `_parse_pass`.
`result = none` embeds Python `result = None` (unknown outcome). -/
structure PassKwargs where
  result : Option PassResult
  receiver_coordinates : Point
  receiver_player : Option Player
  qualifiers : List Qualifier
deriving DecidableEq, Repr

/-- The first block of `_parse_pass` (lines 156-174): outcome-code mapping
and, for an absent outcome, the recipient lookup.  Returns the pair
`(result, receiver_player)`. -/
def _parse_pass_result (pass_dict : PassDict) (team : Team) :
    Except DeserErr (Option PassResult × Option Player) :=
  match pass_dict.outcome with
  | some outcome =>
      if outcome.id = SB_PASS_OUTCOME_OUT then
        .ok (some PassResult.OUT, none)
      else if outcome.id = SB_PASS_OUTCOME_INCOMPLETE then
        .ok (some PassResult.INCOMPLETE, none)
      else if outcome.id = SB_PASS_OUTCOME_OFFSIDE then
        .ok (some PassResult.OFFSIDE, none)
      else if outcome.id = SB_PASS_OUTCOME_INJURY_CLEARANCE then
        .ok (some PassResult.OUT, none)
      else if outcome.id = SB_PASS_OUTCOME_UNKNOWN then
        .ok (none, none)
      else
        .error (.deserializationError ("Unknown pass outcome: " ++ toString outcome.id))
  | none =>
      match pass_dict.recipient with
      | some recipient_id => do
          let receiver_player ← team.get_player_by_id recipient_id
          .ok (some PassResult.COMPLETE, some receiver_player)
      | none => .error (.keyError "recipient")

/-- Embedding of `_parse_pass` (lines 155-188). -/
def _parse_pass (pass_dict : PassDict) (team : Team) (fidelity_version : Nat) :
    Except DeserErr PassKwargs := do
  let rp ← _parse_pass_result pass_dict team
  let receiver_coordinates ← _parse_coordinates pass_dict.end_location fidelity_version
  let qualifiers ← _get_event_qualifiers pass_dict.type_id pass_dict.body_part_id
  .ok { result := rp.1, receiver_coordinates, receiver_player := rp.2, qualifiers }

/-- Embedding of `_parse_shot` (lines 215-241); only the `result` matters to
the claims, the qualifier list is carried for faithfulness. -/
def _parse_shot (shot_dict : ShotDict) : Except DeserErr (ShotResult × List Qualifier) := do
  let outcome ← match shot_dict.outcome with
    | some o => Except.ok o
    | none => Except.error (.keyError "outcome")
  let result ←
    if outcome.id = SB_SHOT_OUTCOME_OFF_TARGET then .ok ShotResult.OFF_TARGET
    else if outcome.id = SB_SHOT_OUTCOME_SAVED then .ok ShotResult.SAVED
    else if outcome.id = SB_SHOT_OUTCOME_SAVED_OFF_TARGET then .ok ShotResult.SAVED
    else if outcome.id = SB_SHOT_OUTCOME_SAVED_TO_POST then .ok ShotResult.SAVED
    else if outcome.id = SB_SHOT_OUTCOME_POST then .ok ShotResult.POST
    else if outcome.id = SB_SHOT_OUTCOME_OFF_WAYWARD then .ok ShotResult.OFF_TARGET
    else if outcome.id = SB_SHOT_OUTCOME_BLOCKED then .ok ShotResult.BLOCKED
    else if outcome.id = SB_SHOT_OUTCOME_GOAL then .ok ShotResult.GOAL
    else .error (.deserializationError ("Unknown shot outcome: " ++ toString outcome.id))
  let qualifiers ← _get_event_qualifiers shot_dict.type_id shot_dict.body_part_id
  .ok (result, qualifiers)

/-- Embedding of `_parse_carry` (lines 244-251). -/
def _parse_carry (carry_dict : CarryDict) (fidelity_version : Nat) :
    Except DeserErr (CarryResult × Point) := do
  let end_coordinates ← _parse_coordinates carry_dict.end_location fidelity_version
  .ok (CarryResult.COMPLETE, end_coordinates)

/-- Embedding of `_parse_take_on` (lines 254-272). -/
def _parse_take_on (take_on_dict : DribbleDict) : Except DeserErr TakeOnResult :=
  match take_on_dict.outcome with
  | some outcome =>
      if outcome.id = SB_PASS_OUTCOME_OUT then .ok TakeOnResult.OUT
      else if outcome.id = SB_PASS_OUTCOME_INCOMPLETE then .ok TakeOnResult.INCOMPLETE
      else if outcome.id = SB_PASS_OUTCOME_COMPLETE then .ok TakeOnResult.COMPLETE
      else
        .error (.deserializationError
          ("Unknown pass outcome: " ++ outcome.name ++ "(" ++ toString outcome.id ++ ")"))
  | none => .ok TakeOnResult.COMPLETE

/-- Embedding of `_parse_substitution` (lines 275-288): the `for ... else`
roster scan, failing with an error that names the missing replacement id. -/
def _parse_substitution (substitution_dict : SubstitutionDict) (team : Team) :
    Except DeserErr Player :=
  match team.players.find?
      (fun player => player.player_id == substitution_dict.replacement_id) with
  | some replacement_player => .ok replacement_player
  | none =>
      .error (.deserializationError
        ("Could not find replacement player " ++ toString substitution_dict.replacement_id))

/-- Embedding of `_parse_card` (lines 307-320), returning the card type. -/
def _parse_card (card_dict : CardDict) : Except DeserErr CardType :=
  if card_dict.id = 5 ∨ card_dict.id = 65 then .ok CardType.RED
  else if card_dict.id = 6 ∨ card_dict.id = 66 then .ok CardType.SECOND_YELLOW
  else if card_dict.id = 7 ∨ card_dict.id = 67 then .ok CardType.FIRST_YELLOW
  else .error (.deserializationError ("Unknown card id " ++ toString card_dict.id))

/-- Embedding of `_parse_bad_behaviour` (lines 291-296): an optional card. -/
def _parse_bad_behaviour (bad_behaviour_dict : CardCarrier) :
    Except DeserErr (Option CardType) :=
  match bad_behaviour_dict.card with
  | some card => do
      let card_type ← _parse_card card
      .ok (some card_type)
  | none => .ok none

/-- Embedding of `_parse_foul_committed` (lines 299-304): an optional card. -/
def _parse_foul_committed (foul_committed_dict : CardCarrier) :
    Except DeserErr (Option CardType) :=
  match foul_committed_dict.card with
  | some card => do
      let card_type ← _parse_card card
      .ok (some card_type)
  | none => .ok none

/-- The loop body of `_determine_xy_fidelity_versions` (lines 329-342): the
accumulator carries `(shot_fidelity_version, xy_fidelity_version)`.
Destructuring `x, y, *_ = location` of a list with fewer than two elements
is a Python `ValueError`. -/
def fidelityScanStep (acc : Nat × Nat) (event : RawEvent) :
    Except DeserErr (Nat × Nat) :=
  match event.location with
  | some (x :: y :: _) =>
      if !(is_integer x) || !(is_integer y) then
        if event.type_id = SB_EVENT_TYPE_SHOT then
          .ok (2, acc.2)
        else if event.type_id = SB_EVENT_TYPE_CARRY ∨
            event.type_id = SB_EVENT_TYPE_DRIBBLE ∨
            event.type_id = SB_EVENT_TYPE_PASS then
          .ok (acc.1, 2)
        else
          .ok acc
      else
        .ok acc
  | some _ => .error .valueError
  | none => .ok acc

/-- Embedding of `_determine_xy_fidelity_versions` (lines 323-343), a single
linear pass over the raw events. -/
def _determine_xy_fidelity_versions (events : List RawEvent) :
    Except DeserErr (Nat × Nat) :=
  events.foldlM fidelityScanStep (1, 1)

/-- The generic keyword bundle shared by every normalized event
(`generic_event_kwargs`, lines 473-492).  The Python dict also carries a
back reference to the raw source record, which is stored verbatim and never
inspected by this pipeline, so it is omitted.  `period` snapshots the value
of the shared mutable `Period` object at event-creation time. -/
structure GenericEventKwargs where
  period : Period
  timestamp : ℚ
  ball_owning_team : Team
  ball_state : BallState
  event_id : String
  team : Team
  player : Option Player
  coordinates : Option Point
deriving DecidableEq, Repr

/-- The family of normalized events, one constructor per `*Event.create`
call in the source, carrying exactly the variant-specific fields those
calls pass. -/
inductive Event where
  | pass (kwargs : GenericEventKwargs) (receive_timestamp : ℚ)
      (result : Option PassResult) (receiver_player : Option Player)
      (receiver_coordinates : Point) (qualifiers : List Qualifier)
  | shot (kwargs : GenericEventKwargs) (result : ShotResult) (qualifiers : List Qualifier)
  | takeOn (kwargs : GenericEventKwargs) (result : TakeOnResult)
  | carry (kwargs : GenericEventKwargs) (result : CarryResult)
      (end_coordinates : Point) (end_timestamp : ℚ)
  | substitution (kwargs : GenericEventKwargs) (replacement_player : Player)
  | card (kwargs : GenericEventKwargs) (card_type : CardType)
  | foulCommitted (kwargs : GenericEventKwargs)
  | playerOn (kwargs : GenericEventKwargs)
  | playerOff (kwargs : GenericEventKwargs)
  | recovery (kwargs : GenericEventKwargs)
  | generic (kwargs : GenericEventKwargs) (event_name : String)
  | ballOut (kwargs : GenericEventKwargs)
deriving DecidableEq, Repr

/-- The generic kwargs of any event. -/
def Event.kwargs : Event → GenericEventKwargs
  | .pass k _ _ _ _ _ => k
  | .shot k _ _ => k
  | .takeOn k _ => k
  | .carry k _ _ _ => k
  | .substitution k _ => k
  | .card k _ => k
  | .foulCommitted k => k
  | .playerOn k => k
  | .playerOff k => k
  | .recovery k => k
  | .generic k _ => k
  | .ballOut k => k

/-- A short display name for an event's variant, used by concrete checks. -/
def Event.kindName : Event → String
  | .pass _ _ _ _ _ _ => "pass"
  | .shot _ _ _ => "shot"
  | .takeOn _ _ => "take_on"
  | .carry _ _ _ _ => "carry"
  | .substitution _ _ => "substitution"
  | .card _ _ => "card"
  | .foulCommitted _ => "foul_committed"
  | .playerOn _ => "player_on"
  | .playerOff _ => "player_off"
  | .recovery _ => "recovery"
  | .generic _ _ => "generic"
  | .ballOut _ => "ball_out"

/-- The value of the Python attribute `event.result`.  Every `create` call
passes a result (possibly `None`); the tag records which enum it came
from, because Python compares `PassResult.OUT` and `TakeOnResult.OUT` as
distinct values. -/
inductive ResultVal where
  | passResult (r : PassResult)
  | shotResult (r : ShotResult)
  | takeOnResult (r : TakeOnResult)
  | carryResult (r : CarryResult)
  | noneVal
deriving DecidableEq, Repr

/-- The `result` attribute of each normalized event. -/
def Event.result : Event → ResultVal
  | .pass _ _ r _ _ _ =>
      match r with
      | some pr => .passResult pr
      | none => .noneVal
  | .shot _ r _ => .shotResult r
  | .takeOn _ r => .takeOnResult r
  | .carry _ r _ _ => .carryResult r
  | _ => .noneVal

/-- Embedding of `OUT_EVENT_RESULTS` (line 87). -/
def OUT_EVENT_RESULTS : List ResultVal :=
  [ResultVal.passResult PassResult.OUT, ResultVal.takeOnResult TakeOnResult.OUT]

/-- Modelled from the spec: the domain event classes live outside src/, and
the spec's data model (section 3) gives receiver coordinates only to the
Pass variant ("pass receiver/coordinates/result; shot result; carry
end-coordinates").  Reading `event.receiver_coordinates` on any other
variant is therefore a missing-attribute access, a Python
`AttributeError`. -/
def Event.receiver_coordinates_attr : Event → Except DeserErr Point
  | .pass _ _ _ _ receiver_coordinates _ => .ok receiver_coordinates
  | _ => .error (.attributeError "receiver_coordinates")

/-- A lineup entry for one player. -/
structure LineupPlayer where
  player_id : Nat
  player_name : String
  jersey_number : Nat
deriving DecidableEq, Repr

/-- One of the two raw lineup records. -/
structure Lineup where
  team_id : Nat
  team_name : String
  lineup : List LineupPlayer
deriving DecidableEq, Repr

/-- Roster building (lines 377-407): one team entity from one lineup
record, the starting flag set by membership in the starting-eleven id
set. -/
def buildTeam (lineup_record : Lineup) (ground : Ground)
    (starting_player_ids : List Nat) : Team :=
  { team_id := lineup_record.team_id,
    name := lineup_record.team_name,
    ground,
    players := lineup_record.lineup.map (fun player =>
      { player_id := player.player_id,
        name := player.player_name,
        jersey_no := player.jersey_number,
        starting := starting_player_ids.contains player.player_id }) }

/-- The starting-eleven id set (lines 371-376): ids of all players listed
in the `tactics.lineup` of every STARTING_XI raw event.  A STARTING_XI
event without a `tactics` key is a Python `KeyError`. -/
def collectStartingIds (raw_events : List RawEvent) : Except DeserErr (List Nat) :=
  raw_events.foldlM
    (fun (acc : List Nat) raw_event =>
      if raw_event.type_id = SB_EVENT_TYPE_STARTING_XI then
        match raw_event.tactics_lineup with
        | some ids => .ok (acc ++ ids)
        | none => .error (.keyError "tactics")
      else .ok acc)
    []

/-- The per-call context of the timeline assembler: the inclusion filter
(external collaborator `should_include_event`), the two lineup team ids,
the two built teams, and the two detected fidelity versions.  The
coordinate transformer is an external collaborator declared out of scope by
the spec and is modelled as the identity. -/
structure Ctx where
  keep : Event → Bool
  home_team_id : Nat
  away_team_id : Nat
  home_team : Team
  away_team : Team
  shot_fidelity_version : Nat
  xy_fidelity_version : Nat

/-- The state threaded through the raw-event loop: the accumulated periods
(the currently open period, when any, is the last element — in Python the
`period` variable aliases the last appended `Period` object) and the
accumulated output events. -/
structure LoopState where
  periods : List Period
  events : List Event
deriving DecidableEq, Repr

/-- Acting-team resolution (lines 415-422). -/
def resolveTeam (ctx : Ctx) (team_id : Nat) : Except DeserErr Team :=
  if team_id = ctx.home_team_id then .ok ctx.home_team
  else if team_id = ctx.away_team_id then .ok ctx.away_team
  else .error (.deserializationError ("Unknown team_id " ++ toString team_id))

/-- Possession-team resolution (lines 424-437). -/
def resolvePossessionTeam (ctx : Ctx) (possession_team_id : Nat) : Except DeserErr Team :=
  if possession_team_id = ctx.home_team_id then .ok ctx.home_team
  else if possession_team_id = ctx.away_team_id then .ok ctx.away_team
  else
    .error (.deserializationError
      ("Unknown possession_team_id: " ++ toString possession_team_id))

/-- Embedding of the period transition (lines 439-454).  A new period is
opened when none is open or the raw period number differs from the open
one; its start adds the previous period's end plus one millisecond, which
in Python is `timestamp + period.end_timestamp + 0.001` and raises
`TypeError` when the open period's end is still `None`.  Otherwise the open
period's end is extended to `start + timestamp`.  Returns the updated list
together with the open period. -/
def updatePeriods (periods : List Period) (period_id : Nat) (timestamp : ℚ) :
    Except DeserErr (List Period × Period) :=
  match periods.getLast? with
  | none =>
      let period : Period :=
        { id := period_id, start_timestamp := timestamp, end_timestamp := none }
      .ok (periods ++ [period], period)
  | some period =>
      if period.id ≠ period_id then
        match period.end_timestamp with
        | none => .error .typeError
        | some prev_end =>
            let new_period : Period :=
              { id := period_id,
                start_timestamp := timestamp + prev_end + 1/1000,
                end_timestamp := none }
            .ok (periods ++ [new_period], new_period)
      else
        let updated : Period :=
          { period with end_timestamp := some (period.start_timestamp + timestamp) }
        .ok (periods.dropLast ++ [updated], updated)

/-- The per-category dispatch (lines 494-622), producing the `new_events`
list for one raw event. -/
def buildNewEvents (raw_event : RawEvent) (team : Team) (gk : GenericEventKwargs)
    (timestamp : ℚ) (fidelity_version : Nat) : Except DeserErr (List Event) :=
  if raw_event.type_id = SB_EVENT_TYPE_PASS then
    match raw_event.pass_dict with
    | none => .error (.keyError "pass")
    | some pass_dict => do
        let pk ← _parse_pass pass_dict team fidelity_version
        match raw_event.duration with
        | none => .error (.keyError "duration")
        | some duration =>
            .ok [Event.pass gk (timestamp + duration) pk.result pk.receiver_player
                  pk.receiver_coordinates pk.qualifiers]
  else if raw_event.type_id = SB_EVENT_TYPE_SHOT then
    match raw_event.shot_dict with
    | none => .error (.keyError "shot")
    | some shot_dict => do
        let sk ← _parse_shot shot_dict
        .ok [Event.shot gk sk.1 sk.2]
  else if raw_event.type_id = SB_EVENT_TYPE_DRIBBLE then
    -- vendor "dribble" maps to the domain take-on concept
    match raw_event.dribble_dict with
    | none => .error (.keyError "dribble")
    | some dribble_dict => do
        let result ← _parse_take_on dribble_dict
        .ok [Event.takeOn gk result]
  else if raw_event.type_id = SB_EVENT_TYPE_CARRY then
    match raw_event.carry_dict with
    | none => .error (.keyError "carry")
    | some carry_dict => do
        let ck ← _parse_carry carry_dict fidelity_version
        .ok [Event.carry gk ck.1 ck.2 (timestamp + raw_event.duration.getD 0)]
  else if raw_event.type_id = SB_EVENT_TYPE_SUBSTITUTION then
    match raw_event.substitution_dict with
    | none => .error (.keyError "substitution")
    | some substitution_dict => do
        let replacement_player ← _parse_substitution substitution_dict team
        .ok [Event.substitution gk replacement_player]
  else if raw_event.type_id = SB_EVENT_TYPE_BAD_BEHAVIOUR then do
    let card ← _parse_bad_behaviour (raw_event.bad_behaviour_dict.getD { card := none })
    match card with
    | some card_type => .ok [Event.card gk card_type]
    | none => .ok []
  else if raw_event.type_id = SB_EVENT_TYPE_FOUL_COMMITTED then do
    let card ← _parse_foul_committed (raw_event.foul_committed_dict.getD { card := none })
    match card with
    | some card_type => .ok [Event.foulCommitted gk, Event.card gk card_type]
    | none => .ok [Event.foulCommitted gk]
  else if raw_event.type_id = SB_EVENT_TYPE_PLAYER_ON then
    .ok [Event.playerOn gk]
  else if raw_event.type_id = SB_EVENT_TYPE_PLAYER_OFF then
    .ok [Event.playerOff gk]
  else if raw_event.type_id = SB_EVENT_TYPE_RECOVERY then
    .ok [Event.recovery gk]
  else
    .ok [Event.generic gk raw_event.type_name]

/-- One iteration of the inclusion / synthetic-BallOut loop (lines 624-647)
over the freshly built events.  The accumulator carries the output list and
the (mutated) generic kwargs dict. -/
def processOutStep (keep : Event → Bool)
    (acc : List Event × GenericEventKwargs) (event : Event) :
    Except DeserErr (List Event × GenericEventKwargs) := do
  let events := if keep event then acc.1 ++ [event] else acc.1
  if Event.result event ∈ OUT_EVENT_RESULTS then do
    let gk := { acc.2 with ball_state := BallState.DEAD }
    let receiver_coordinates ← Event.receiver_coordinates_attr event
    -- `if event.receiver_coordinates:` — a Point object is always truthy
    let gk := { gk with coordinates := some receiver_coordinates }
    let ball_out_event := Event.ballOut gk
    let events := if keep ball_out_event then events ++ [ball_out_event] else events
    .ok (events, gk)
  else
    .ok (events, acc.2)

/-- The full `for event in new_events` loop for one raw event. -/
def processNewEvents (keep : Event → Bool) (new_events : List Event)
    (events0 : List Event) (gk : GenericEventKwargs) :
    Except DeserErr (List Event × GenericEventKwargs) :=
  new_events.foldlM (processOutStep keep) (events0, gk)

/-- Acting-player resolution (lines 456-458): an id lookup when the raw
event names a player, `None` otherwise. -/
def resolvePlayer (team : Team) (player_id : Option Nat) :
    Except DeserErr (Option Player) :=
  match player_id with
  | some pid => do
      let p ← team.get_player_by_id pid
      pure (some p)
  | none => pure none

/-- Event-coordinate resolution (lines 483-490): parse the location when
present. -/
def resolveCoordinates (location : Option (List ℚ)) (fidelity_version : Nat) :
    Except DeserErr (Option Point) :=
  match location with
  | some loc => do
      let point ← _parse_coordinates loc fidelity_version
      pure (some point)
  | none => pure none

/-- One iteration of the main raw-event loop (lines 414-647). -/
def processRawEvent (ctx : Ctx) (st : LoopState) (raw_event : RawEvent) :
    Except DeserErr LoopState := do
  let team ← resolveTeam ctx raw_event.team_id
  let possession_team ← resolvePossessionTeam ctx raw_event.possession_team_id
  let timestamp := parse_str_ts raw_event.timestamp
  let pr ← updatePeriods st.periods raw_event.period timestamp
  let player ← resolvePlayer team raw_event.player_id
  let fidelity_version :=
    if raw_event.type_id = SB_EVENT_TYPE_SHOT then ctx.shot_fidelity_version
    else if raw_event.type_id = SB_EVENT_TYPE_CARRY ∨
        raw_event.type_id = SB_EVENT_TYPE_DRIBBLE ∨
        raw_event.type_id = SB_EVENT_TYPE_PASS then ctx.xy_fidelity_version
    else ctx.xy_fidelity_version
  let coordinates ← resolveCoordinates raw_event.location fidelity_version
  let generic_event_kwargs : GenericEventKwargs :=
    { period := pr.2, timestamp, ball_owning_team := possession_team,
      ball_state := BallState.ALIVE, event_id := raw_event.event_id,
      team, player, coordinates }
  let new_events ← buildNewEvents raw_event team generic_event_kwargs timestamp fidelity_version
  let final ← processNewEvents ctx.keep new_events st.events generic_event_kwargs
  .ok { periods := pr.1, events := final.1 }

/-- Embedding of `StatsBombDeserializer.deserialize` (lines 356-664)
restricted to its core: fidelity detection, roster building, and the event
loop.  JSON loading and the metadata envelope are external collaborators;
the result is the accumulated period list and the normalized event
sequence. -/
def deserialize (keep : Event → Bool) (home_lineup away_lineup : Lineup)
    (raw_events : List RawEvent) :
    Except DeserErr (List Period × List Event) := do
  let fidelity ← _determine_xy_fidelity_versions raw_events
  let starting_player_ids ← collectStartingIds raw_events
  let home_team := buildTeam home_lineup Ground.HOME starting_player_ids
  let away_team := buildTeam away_lineup Ground.AWAY starting_player_ids
  let ctx : Ctx :=
    { keep, home_team_id := home_lineup.team_id, away_team_id := away_lineup.team_id,
      home_team, away_team,
      shot_fidelity_version := fidelity.1, xy_fidelity_version := fidelity.2 }
  let final ← raw_events.foldlM (processRawEvent ctx) { periods := [], events := [] }
  .ok (final.periods, final.events)

/-! ## Generic inversion and transport lemmas for `Except` computations -/

theorem except_bind_ok {ε α β : Type _} {x : Except ε α} {f : α → Except ε β} {b : β}
    (h : x >>= f = .ok b) : ∃ a, x = .ok a ∧ f a = .ok b := by
  cases x with
  | ok a => exact ⟨a, rfl, h⟩
  | error e => exact Except.noConfusion h

theorem except_pure_ok {ε α : Type _} {a b : α}
    (h : (pure a : Except ε α) = .ok b) : a = b := by
  cases h
  rfl

theorem except_ok_bind {ε α β : Type _} (a : α) (f : α → Except ε β) :
    (Except.ok a >>= f) = f a := rfl

theorem except_error_bind {ε α β : Type _} (e : ε) (f : α → Except ε β) :
    ((Except.error e : Except ε α) >>= f) = Except.error e := rfl

theorem except_pure_eq {ε α : Type _} (a : α) :
    (pure a : Except ε α) = Except.ok a := rfl

/-- Invariant transport along `List.foldlM` in the `Except` monad. -/
theorem foldlM_except_inv {ε σ α : Type _} (f : σ → α → Except ε σ) (P : σ → Prop)
    (Q : α → Prop) (l : List α) (hQ : ∀ a ∈ l, Q a)
    (hf : ∀ s a s', Q a → P s → f s a = .ok s' → P s') :
    ∀ s₀, P s₀ → ∀ s₁, l.foldlM f s₀ = .ok s₁ → P s₁ := by
  induction l with
  | nil =>
      intro s₀ h₀ s₁ h
      rw [List.foldlM_nil] at h
      exact except_pure_ok h ▸ h₀
  | cons a l ih =>
      intro s₀ h₀ s₁ h
      rw [List.foldlM_cons] at h
      obtain ⟨s', hs', h⟩ := except_bind_ok h
      exact ih (fun x hx => hQ x (List.mem_cons_of_mem a hx))
        s' (hf s₀ a s' (hQ a (List.mem_cons_self a l)) h₀ hs') s₁ h

/-- Evaluation lemma: an event whose result is not an out-result only goes
through the inclusion filter. -/
theorem processOutStep_no_out (keep : Event → Bool)
    (acc : List Event × GenericEventKwargs) (event : Event)
    (h : Event.result event ∉ OUT_EVENT_RESULTS) :
    processOutStep keep acc event =
      .ok (if keep event then acc.1 ++ [event] else acc.1, acc.2) := by
  simp [processOutStep, h]

/-- Evaluation lemma: a generic event never triggers BallOut synthesis. -/
theorem processOutStep_generic (keep : Event → Bool)
    (acc : List Event × GenericEventKwargs) (gk : GenericEventKwargs) (nm : String) :
    processOutStep keep acc (Event.generic gk nm) =
      .ok (if keep (Event.generic gk nm) then acc.1 ++ [Event.generic gk nm] else acc.1,
           acc.2) := by
  simp [processOutStep, Event.result, OUT_EVENT_RESULTS]

/-- Evaluation lemma: a pass event with result OUT is (subject to the
filter) appended and then followed by a synthetic BallOut event carrying
the pass's receiver coordinates and a dead ball state. -/
theorem processOutStep_pass_out (keep : Event → Bool)
    (acc : List Event × GenericEventKwargs) (gk : GenericEventKwargs)
    (rts : ℚ) (rpl : Option Player) (rc : Point) (q : List Qualifier) :
    processOutStep keep acc (Event.pass gk rts (some PassResult.OUT) rpl rc q) =
      .ok
        (let events :=
          if keep (Event.pass gk rts (some PassResult.OUT) rpl rc q) then
            acc.1 ++ [Event.pass gk rts (some PassResult.OUT) rpl rc q]
          else acc.1
         let gk2 := { acc.2 with ball_state := BallState.DEAD, coordinates := some rc }
         (if keep (Event.ballOut gk2) then events ++ [Event.ballOut gk2] else events, gk2)) := by
  simp [processOutStep, Event.result, OUT_EVENT_RESULTS, Event.receiver_coordinates_attr,
    except_ok_bind]

/-! ## Shared concrete sample inputs for witnesses and counterexamples -/

/-- A minimal raw event of a given category, period and seconds component;
all optional fields absent. -/
def sampleRaw (tid pid : Nat) (s : ℚ) : RawEvent :=
  { event_id := "e", type_id := tid, type_name := "Sample",
    timestamp := { h := 0, m := 0, s := s }, period := pid,
    team_id := 1, possession_team_id := 1, player_id := none,
    location := none, duration := none, pass_dict := none, shot_dict := none,
    dribble_dict := none, carry_dict := none, substitution_dict := none,
    bad_behaviour_dict := none, foul_committed_dict := none, tactics_lineup := none }

def homeLineup0 : Lineup := { team_id := 1, team_name := "Home", lineup := [] }

def awayLineup0 : Lineup := { team_id := 2, team_name := "Away", lineup := [] }

def keepAll : Event → Bool := fun _ => true

def keepNone : Event → Bool := fun _ => false

/-! ## C6: the coordinate resolver -/

/-- C6: the coordinate resolver maps raw cell pair (1,1) at low fidelity
(version 1) to (0.5, 0.5) and at high fidelity (version 2) to (0.95, 0.95);
in general each output coordinate is the raw value minus half a cell side,
the cell side being 1 at low fidelity and 1/10 at high fidelity. -/
theorem coordinate_resolver_values :
    _parse_coordinates [1, 1] 1 = .ok { x := 1/2, y := 1/2 } ∧
    _parse_coordinates [1, 1] 2 = .ok { x := 19/20, y := 19/20 } ∧
    ∀ (x y : ℚ) (rest : List ℚ) (fidelity_version : Nat),
      _parse_coordinates (x :: y :: rest) fidelity_version =
        .ok { x := x - (if fidelity_version = 2 then (1 : ℚ)/10 else 1) / 2,
              y := y - (if fidelity_version = 2 then (1 : ℚ)/10 else 1) / 2 } := by
  refine ⟨?_, ?_, ?_⟩
  · show Except.ok _ = _
    norm_num
  · show Except.ok _ = _
    norm_num
  · intro x y rest fidelity_version
    rfl

/-! ## C2: take-on events with an OUT result and BallOut synthesis -/

/-- A raw dribble event whose outcome code 75 yields `TakeOnResult.OUT`. -/
def dribbleOutRaw : RawEvent :=
  { sampleRaw SB_EVENT_TYPE_DRIBBLE 1 0 with
    dribble_dict := some { outcome := some { id := 75, name := "Out" } } }

/-- C2 (failing input): deserializing a single dribble raw event with the
out-of-bounds outcome code builds a take-on event whose result is in
`OUT_EVENT_RESULTS`, and the loop then reads `event.receiver_coordinates`,
an attribute the take-on variant does not carry — so the whole call fails
with a missing-attribute error instead of emitting the BallOut event the
claim describes. -/
theorem take_on_out_attribute_failure :
    deserialize keepAll homeLineup0 awayLineup0 [dribbleOutRaw] =
      .error (DeserErr.attributeError "receiver_coordinates") := by
  rfl

/-! ## C1: the pass outcome mapping -/

/-- C1: `_parse_pass` maps the vendor outcome deterministically into
{OUT, INCOMPLETE, OFFSIDE, COMPLETE, none}: every successful parse carries a
result from that set, a present outcome whose code is outside the five
mapped codes yields the deserialization error naming it, and an absent
outcome yields COMPLETE with the receiver obtained by id lookup in the
acting team's roster. -/
theorem pass_outcome_mapping (pd : PassDict) (team : Team) (fv : Nat) :
    (∀ pk, _parse_pass pd team fv = .ok pk →
        pk.result ∈ [some PassResult.OUT, some PassResult.INCOMPLETE,
          some PassResult.OFFSIDE, some PassResult.COMPLETE,
          (none : Option PassResult)]) ∧
    (∀ o, pd.outcome = some o →
        o.id ∉ [SB_PASS_OUTCOME_OUT, SB_PASS_OUTCOME_INCOMPLETE,
          SB_PASS_OUTCOME_OFFSIDE, SB_PASS_OUTCOME_INJURY_CLEARANCE,
          SB_PASS_OUTCOME_UNKNOWN] →
        _parse_pass pd team fv =
          .error (.deserializationError ("Unknown pass outcome: " ++ toString o.id))) ∧
    (∀ pk, pd.outcome = none → _parse_pass pd team fv = .ok pk →
        pk.result = some PassResult.COMPLETE ∧
        ∃ recipient_id receiver, pd.recipient = some recipient_id ∧
          team.get_player_by_id recipient_id = .ok receiver ∧
          pk.receiver_player = some receiver) := by
  refine ⟨?_, ?_, ?_⟩
  · intro pk h
    unfold _parse_pass at h
    obtain ⟨rp, hrp, h⟩ := except_bind_ok h
    obtain ⟨rc, hrc, h⟩ := except_bind_ok h
    obtain ⟨q, hq, h⟩ := except_bind_ok h
    injection h with h
    subst h
    show rp.1 ∈ _
    unfold _parse_pass_result at hrp
    split at hrp
    · split_ifs at hrp <;> (injection hrp with hrp; subst hrp; simp)
    · split at hrp
      · obtain ⟨p, hp, hrp⟩ := except_bind_ok hrp
        injection hrp with hrp
        subst hrp
        simp
      · exact Except.noConfusion hrp
  · intro o ho hno
    simp only [List.mem_cons, List.not_mem_nil, or_false, not_or] at hno
    obtain ⟨h75, h9, h76, h74, h77⟩ := hno
    have hres : _parse_pass_result pd team =
        .error (.deserializationError ("Unknown pass outcome: " ++ toString o.id)) := by
      unfold _parse_pass_result
      simp only [ho]
      rw [if_neg h75, if_neg h9, if_neg h76, if_neg h74, if_neg h77]
    unfold _parse_pass
    rw [hres]
    rfl
  · intro pk ho h
    unfold _parse_pass at h
    obtain ⟨rp, hrp, h⟩ := except_bind_ok h
    obtain ⟨rc, hrc, h⟩ := except_bind_ok h
    obtain ⟨q, hq, h⟩ := except_bind_ok h
    injection h with h
    subst h
    unfold _parse_pass_result at hrp
    simp only [ho] at hrp
    split at hrp
    · obtain ⟨p, hp, hrp⟩ := except_bind_ok hrp
      injection hrp with hrp
      subst hrp
      exact ⟨rfl, _, p, by assumption, hp, rfl⟩
    · exact Except.noConfusion hrp

/-- Sample inputs for the pass-mapping witness. -/
def passTeam0 : Team :=
  { team_id := 1, name := "Home", ground := Ground.HOME,
    players := [{ player_id := 10, name := "Receiver", jersey_no := 9, starting := true }] }

def pdOutSample : PassDict :=
  { outcome := some { id := 75, name := "Out" }, recipient := none,
    end_location := [1, 1], type_id := none, body_part_id := none }

def pdUnknownSample : PassDict :=
  { outcome := some { id := 8, name := "Complete" }, recipient := none,
    end_location := [1, 1], type_id := none, body_part_id := none }

def pdCompleteSample : PassDict :=
  { outcome := none, recipient := some 10,
    end_location := [1, 1], type_id := none, body_part_id := none }

def pkOutSample : PassKwargs :=
  { result := some PassResult.OUT, receiver_coordinates := { x := 1/2, y := 1/2 },
    receiver_player := none, qualifiers := [] }

def pkCompleteSample : PassKwargs :=
  { result := some PassResult.COMPLETE, receiver_coordinates := { x := 1/2, y := 1/2 },
    receiver_player := some { player_id := 10, name := "Receiver", jersey_no := 9, starting := true },
    qualifiers := [] }

/-- Witness for C1 at concrete inputs: outcome 75 parses with a result in
the five-element set, outcome 8 is rejected with the error naming it, and an
absent outcome parses to COMPLETE with the looked-up receiver. -/
theorem pass_outcome_mapping_witness :
    PassKwargs.result pkOutSample ∈ [some PassResult.OUT, some PassResult.INCOMPLETE,
      some PassResult.OFFSIDE, some PassResult.COMPLETE, (none : Option PassResult)] ∧
    _parse_pass pdUnknownSample passTeam0 1 =
      .error (.deserializationError ("Unknown pass outcome: " ++ toString 8)) ∧
    (PassKwargs.result pkCompleteSample = some PassResult.COMPLETE ∧
      ∃ recipient_id receiver, pdCompleteSample.recipient = some recipient_id ∧
        passTeam0.get_player_by_id recipient_id = .ok receiver ∧
        pkCompleteSample.receiver_player = some receiver) :=
  ⟨(pass_outcome_mapping pdOutSample passTeam0 1).1 pkOutSample
     (by simp [_parse_pass, _parse_pass_result, _parse_coordinates, _get_event_qualifiers,
           pdOutSample, passTeam0, pkOutSample, SB_PASS_OUTCOME_OUT]
         norm_num
         rfl),
   (pass_outcome_mapping pdUnknownSample passTeam0 1).2.1 { id := 8, name := "Complete" }
     rfl (by decide),
   (pass_outcome_mapping pdCompleteSample passTeam0 1).2.2 pkCompleteSample rfl
     (by simp [_parse_pass, _parse_pass_result, _parse_coordinates, _get_event_qualifiers,
           pdCompleteSample, passTeam0, pkCompleteSample, Team.get_player_by_id, List.find?]
         norm_num
         rfl)⟩

/-! ## C7: foul-committed events and embedded red cards -/

/-- C7: a foul-committed raw event with an embedded red card (code 5 or 65)
produces exactly the two events FoulCommitted then Card(RED), in that
order; a foul-committed raw event without a card sub-object produces
exactly the single FoulCommitted event. -/
theorem foul_committed_event_emission (raw_event : RawEvent) (team : Team)
    (gk : GenericEventKwargs) (timestamp : ℚ) (fidelity_version : Nat)
    (htype : raw_event.type_id = SB_EVENT_TYPE_FOUL_COMMITTED) :
    (∀ fc card, raw_event.foul_committed_dict = some fc → fc.card = some card →
        card.id = 5 ∨ card.id = 65 →
        buildNewEvents raw_event team gk timestamp fidelity_version =
          .ok [Event.foulCommitted gk, Event.card gk CardType.RED]) ∧
    ((∀ fc, raw_event.foul_committed_dict = some fc → fc.card = none) →
        buildNewEvents raw_event team gk timestamp fidelity_version =
          .ok [Event.foulCommitted gk]) := by
  constructor
  · intro fc card hfc hcard hred
    simp only [buildNewEvents, htype, SB_EVENT_TYPE_FOUL_COMMITTED, SB_EVENT_TYPE_PASS,
      SB_EVENT_TYPE_SHOT, SB_EVENT_TYPE_DRIBBLE, SB_EVENT_TYPE_CARRY,
      SB_EVENT_TYPE_SUBSTITUTION, SB_EVENT_TYPE_BAD_BEHAVIOUR]
    norm_num
    simp only [hfc, Option.getD_some, _parse_foul_committed, hcard, _parse_card,
      if_pos hred]
    rfl
  · intro hnocard
    simp only [buildNewEvents, htype, SB_EVENT_TYPE_FOUL_COMMITTED, SB_EVENT_TYPE_PASS,
      SB_EVENT_TYPE_SHOT, SB_EVENT_TYPE_DRIBBLE, SB_EVENT_TYPE_CARRY,
      SB_EVENT_TYPE_SUBSTITUTION, SB_EVENT_TYPE_BAD_BEHAVIOUR]
    norm_num
    cases hfc : raw_event.foul_committed_dict with
    | none => rfl
    | some fc =>
        simp only [Option.getD_some, _parse_foul_committed, hnocard fc hfc]
        rfl

/-- Sample inputs for the foul-committed witness. -/
def foulRedRaw : RawEvent :=
  { sampleRaw SB_EVENT_TYPE_FOUL_COMMITTED 1 0 with
    foul_committed_dict := some { card := some { id := 5 } } }

def foulPlainRaw : RawEvent := sampleRaw SB_EVENT_TYPE_FOUL_COMMITTED 1 0

def gkSample : GenericEventKwargs :=
  { period := { id := 1, start_timestamp := 0, end_timestamp := none },
    timestamp := 0,
    ball_owning_team := buildTeam homeLineup0 Ground.HOME [],
    ball_state := BallState.ALIVE, event_id := "e",
    team := buildTeam homeLineup0 Ground.HOME [],
    player := none, coordinates := none }

/-- Witness for C7 at concrete inputs: a foul with card id 5 yields
[FoulCommitted, Card RED]; a foul without a card yields [FoulCommitted]. -/
theorem foul_committed_event_emission_witness :
    buildNewEvents foulRedRaw passTeam0 gkSample 0 1 =
      .ok [Event.foulCommitted gkSample, Event.card gkSample CardType.RED] ∧
    buildNewEvents foulPlainRaw passTeam0 gkSample 0 1 =
      .ok [Event.foulCommitted gkSample] :=
  ⟨(foul_committed_event_emission foulRedRaw passTeam0 gkSample 0 1 rfl).1
      { card := some { id := 5 } } { id := 5 } rfl rfl (Or.inl rfl),
   (foul_committed_event_emission foulPlainRaw passTeam0 gkSample 0 1 rfl).2
      (by intro fc h; exact Option.noConfusion h)⟩

/-! ## C8: substitution replacement-player resolution -/

/-- A roster built from a lineup that nowhere lists `rid` cannot find a
player with id `rid`. -/
theorem buildTeam_find_replacement_none (lineup_record : Lineup) (ground : Ground)
    (ids : List Nat) (rid : Nat)
    (h : ∀ lp ∈ lineup_record.lineup, lp.player_id ≠ rid) :
    (buildTeam lineup_record ground ids).players.find?
      (fun player => player.player_id == rid) = none := by
  apply List.find?_eq_none.mpr
  intro x hx
  simp only [buildTeam, List.mem_map] at hx
  obtain ⟨lp, hlp, rfl⟩ := hx
  simpa using h lp hlp

/-- C8: the substitution mapper scans the acting team's roster for the
replacement id; when no roster player matches, it fails with the
deserialization error naming the missing id (and a whole single-event
deserialization call fails with exactly that error); when a matching player
exists, that player is returned. -/
theorem substitution_replacement_lookup (sd : SubstitutionDict) (team : Team) :
    ((∀ p ∈ team.players, p.player_id ≠ sd.replacement_id) →
        _parse_substitution sd team = .error (.deserializationError
          ("Could not find replacement player " ++ toString sd.replacement_id))) ∧
    (∀ p, team.players.find? (fun player => player.player_id == sd.replacement_id) = some p →
        _parse_substitution sd team = .ok p) ∧
    (∀ (keep : Event → Bool) (home_lineup away_lineup : Lineup) (raw_event : RawEvent),
        raw_event.type_id = SB_EVENT_TYPE_SUBSTITUTION →
        raw_event.team_id = home_lineup.team_id →
        raw_event.possession_team_id = home_lineup.team_id →
        raw_event.player_id = none →
        raw_event.location = none →
        raw_event.substitution_dict = some sd →
        (∀ lp ∈ home_lineup.lineup, lp.player_id ≠ sd.replacement_id) →
        deserialize keep home_lineup away_lineup [raw_event] =
          .error (.deserializationError
            ("Could not find replacement player " ++ toString sd.replacement_id))) := by
  refine ⟨?_, ?_, ?_⟩
  · intro hnone
    have h : team.players.find?
        (fun player => player.player_id == sd.replacement_id) = none :=
      List.find?_eq_none.mpr (fun x hx => by simpa using hnone x hx)
    unfold _parse_substitution
    rw [h]
  · intro p hp
    unfold _parse_substitution
    rw [hp]
  · intro keep home_lineup away_lineup raw_event htype hteam hposs hplayer hloc hsub hroster
    have hfid : _determine_xy_fidelity_versions [raw_event] = .ok (1, 1) := by
      simp [_determine_xy_fidelity_versions, fidelityScanStep, hloc]
    have hstart : collectStartingIds [raw_event] = .ok [] := by
      simp [collectStartingIds, htype, SB_EVENT_TYPE_SUBSTITUTION, SB_EVENT_TYPE_STARTING_XI]
    have hsubparse : _parse_substitution sd (buildTeam home_lineup Ground.HOME []) =
        .error (.deserializationError
          ("Could not find replacement player " ++ toString sd.replacement_id)) := by
      unfold _parse_substitution
      rw [buildTeam_find_replacement_none home_lineup Ground.HOME [] sd.replacement_id hroster]
    simp only [deserialize, hfid, hstart, except_ok_bind, List.foldlM_cons, List.foldlM_nil,
      processRawEvent, resolveTeam, resolvePossessionTeam, hteam, hposs]
    simp only [updatePeriods, List.getLast?_nil, hplayer, hloc, except_pure_eq,
      except_ok_bind, buildNewEvents, htype, SB_EVENT_TYPE_SUBSTITUTION, SB_EVENT_TYPE_PASS,
      SB_EVENT_TYPE_SHOT, SB_EVENT_TYPE_DRIBBLE, SB_EVENT_TYPE_CARRY, hsub]
    norm_num
    simp only [except_ok_bind, hsubparse, except_error_bind, resolvePlayer,
      resolveCoordinates, except_pure_eq]

/-- Sample inputs for the substitution witness: a roster of one player with
id 7 and a substitution asking for replacement id 99. -/
def sdMissing : SubstitutionDict := { replacement_id := 99 }

def subLineup : Lineup :=
  { team_id := 1, team_name := "Home",
    lineup := [{ player_id := 7, player_name := "Seven", jersey_number := 7 }] }

def subRaw : RawEvent :=
  { sampleRaw SB_EVENT_TYPE_SUBSTITUTION 1 0 with substitution_dict := some sdMissing }

/-- Witness for C8 at concrete inputs: the missing replacement id 99 makes
both the mapper and the whole single-event deserialization call fail with
the error naming 99, and a matching roster id is returned. -/
theorem substitution_replacement_lookup_witness :
    _parse_substitution sdMissing (buildTeam subLineup Ground.HOME []) =
      .error (.deserializationError ("Could not find replacement player " ++ toString 99)) ∧
    deserialize keepAll subLineup awayLineup0 [subRaw] =
      .error (.deserializationError ("Could not find replacement player " ++ toString 99)) ∧
    _parse_substitution { replacement_id := 7 } (buildTeam subLineup Ground.HOME []) =
      .ok { player_id := 7, name := "Seven", jersey_no := 7, starting := false } :=
  ⟨(substitution_replacement_lookup sdMissing (buildTeam subLineup Ground.HOME [])).1
      (by decide),
   (substitution_replacement_lookup sdMissing (buildTeam subLineup Ground.HOME [])).2.2
      keepAll subLineup awayLineup0 subRaw rfl rfl rfl rfl rfl rfl (by decide),
   (substitution_replacement_lookup { replacement_id := 7 }
        (buildTeam subLineup Ground.HOME [])).2.1
      { player_id := 7, name := "Seven", jersey_no := 7, starting := false } (by decide)⟩

/-! ## C5: the fidelity detector -/

/-- Whether a raw event carries a location whose first two components are
not both whole numbers — the evidence the detector scans for. -/
def hasHighFidelityLocation (event : RawEvent) : Bool :=
  match event.location with
  | some (x :: y :: _) => !(is_integer x) || !(is_integer y)
  | _ => false

/-- Shot-category high-fidelity evidence. -/
def shotHighEvidence (event : RawEvent) : Bool :=
  hasHighFidelityLocation event && (event.type_id == SB_EVENT_TYPE_SHOT)

/-- Movement-category (carry / dribble / pass) high-fidelity evidence. -/
def moveHighEvidence (event : RawEvent) : Bool :=
  hasHighFidelityLocation event &&
    (event.type_id == SB_EVENT_TYPE_CARRY || event.type_id == SB_EVENT_TYPE_DRIBBLE ||
      event.type_id == SB_EVENT_TYPE_PASS)

/-- The pure counterpart of `fidelityScanStep`, total on all events. -/
def fidelityStep (acc : Nat × Nat) (event : RawEvent) : Nat × Nat :=
  if hasHighFidelityLocation event then
    if event.type_id = SB_EVENT_TYPE_SHOT then (2, acc.2)
    else if event.type_id = SB_EVENT_TYPE_CARRY ∨ event.type_id = SB_EVENT_TYPE_DRIBBLE ∨
        event.type_id = SB_EVENT_TYPE_PASS then (acc.1, 2)
    else acc
  else acc

/-- On an event with a well-formed location, the monadic scan step agrees
with the pure step. -/
theorem fidelityScanStep_eq_fidelityStep (acc : Nat × Nat) (event : RawEvent)
    (hwf : ∀ loc, event.location = some loc → 2 ≤ loc.length) :
    fidelityScanStep acc event = .ok (fidelityStep acc event) := by
  cases hloc : event.location with
  | none => simp [fidelityScanStep, fidelityStep, hasHighFidelityLocation, hloc]
  | some loc =>
      cases loc with
      | nil => exact absurd (hwf [] hloc) (by simp)
      | cons x t =>
          cases t with
          | nil => exact absurd (hwf [x] hloc) (by simp)
          | cons y rest =>
              simp only [fidelityScanStep, fidelityStep, hasHighFidelityLocation, hloc]
              split_ifs <;> rfl

/-- First component of the pure step: it flips to 2 exactly on shot
evidence. -/
theorem fidelityStep_fst (acc : Nat × Nat) (event : RawEvent) :
    (fidelityStep acc event).1 = if shotHighEvidence event then 2 else acc.1 := by
  unfold fidelityStep shotHighEvidence
  cases hh : hasHighFidelityLocation event with
  | false => simp
  | true => split_ifs <;> simp_all

/-- Second component of the pure step: it flips to 2 exactly on movement
evidence. -/
theorem fidelityStep_snd (acc : Nat × Nat) (event : RawEvent) :
    (fidelityStep acc event).2 = if moveHighEvidence event then 2 else acc.2 := by
  unfold fidelityStep moveHighEvidence
  cases hh : hasHighFidelityLocation event with
  | false => simp
  | true =>
      split_ifs with h1 h2 <;> simp_all [SB_EVENT_TYPE_SHOT, SB_EVENT_TYPE_CARRY,
        SB_EVENT_TYPE_DRIBBLE, SB_EVENT_TYPE_PASS]

/-- Folding the pure step: the first component of the final accumulator. -/
theorem foldl_fidelityStep_fst (events : List RawEvent) :
    ∀ acc : Nat × Nat, (events.foldl fidelityStep acc).1 =
      if events.any shotHighEvidence then 2 else acc.1 := by
  induction events with
  | nil => intro acc; simp
  | cons e l ih =>
      intro acc
      rw [List.foldl_cons, ih, List.any_cons]
      by_cases he : shotHighEvidence e <;>
        by_cases hl : l.any shotHighEvidence <;>
          simp [he, hl, fidelityStep_fst]

/-- Folding the pure step: the second component of the final accumulator. -/
theorem foldl_fidelityStep_snd (events : List RawEvent) :
    ∀ acc : Nat × Nat, (events.foldl fidelityStep acc).2 =
      if events.any moveHighEvidence then 2 else acc.2 := by
  induction events with
  | nil => intro acc; simp
  | cons e l ih =>
      intro acc
      rw [List.foldl_cons, ih, List.any_cons]
      by_cases he : moveHighEvidence e <;>
        by_cases hl : l.any moveHighEvidence <;>
          simp [he, hl, fidelityStep_snd]

/-- The monadic fold agrees with the pure fold on well-formed inputs. -/
theorem foldlM_fidelityScan_eq (events : List RawEvent) :
    (∀ e ∈ events, ∀ loc, e.location = some loc → 2 ≤ loc.length) →
    ∀ acc : Nat × Nat,
      events.foldlM fidelityScanStep acc = .ok (events.foldl fidelityStep acc) := by
  induction events with
  | nil => intro _ acc; rfl
  | cons e l ih =>
      intro hwf acc
      rw [List.foldlM_cons, List.foldl_cons,
        fidelityScanStep_eq_fidelityStep acc e (hwf e (List.mem_cons_self e l)),
        except_ok_bind]
      exact ih (fun x hx => hwf x (List.mem_cons_of_mem e hx)) (fidelityStep acc e)

/-- On well-formed inputs the detector is the pure fold. -/
theorem determine_eq_foldl (events : List RawEvent)
    (hwf : ∀ e ∈ events, ∀ loc, e.location = some loc → 2 ≤ loc.length) :
    _determine_xy_fidelity_versions events =
      .ok (events.foldl fidelityStep (1, 1)) :=
  foldlM_fidelityScan_eq events hwf (1, 1)

/-- C5: on raw events with well-formed locations the fidelity detector
succeeds in one linear pass, its shot tag is 2 ("high") exactly when some
shot-category event carries a location component that is not a whole
number, its movement tag is 2 exactly when some carry / dribble / pass
event does, and each tag is 1 ("low") exactly otherwise. -/
theorem fidelity_detector_characterisation (events : List RawEvent)
    (hwf : ∀ e ∈ events, ∀ loc, e.location = some loc → 2 ≤ loc.length) :
    ∃ shot_fidelity_version xy_fidelity_version,
      _determine_xy_fidelity_versions events =
        .ok (shot_fidelity_version, xy_fidelity_version) ∧
      (shot_fidelity_version = 2 ↔ ∃ e ∈ events, shotHighEvidence e = true) ∧
      (shot_fidelity_version = 1 ↔ ¬ ∃ e ∈ events, shotHighEvidence e = true) ∧
      (xy_fidelity_version = 2 ↔ ∃ e ∈ events, moveHighEvidence e = true) ∧
      (xy_fidelity_version = 1 ↔ ¬ ∃ e ∈ events, moveHighEvidence e = true) := by
  refine ⟨(events.foldl fidelityStep (1, 1)).1, (events.foldl fidelityStep (1, 1)).2,
    by rw [determine_eq_foldl events hwf], ?_, ?_, ?_, ?_⟩
  · rw [foldl_fidelityStep_fst]
    by_cases h : events.any shotHighEvidence <;> simp_all [List.any_eq_true]
  · rw [foldl_fidelityStep_fst]
    by_cases h : events.any shotHighEvidence <;> simp_all [List.any_eq_true]
  · rw [foldl_fidelityStep_snd]
    by_cases h : events.any moveHighEvidence <;> simp_all [List.any_eq_true]
  · rw [foldl_fidelityStep_snd]
    by_cases h : events.any moveHighEvidence <;> simp_all [List.any_eq_true]

/-! ## Period bookkeeping: shared lemmas for C3, C4 and C10 -/

/-- A well-formed raw timestamp parses to a non-negative number of
seconds. -/
theorem parse_str_ts_nonneg (t : RawTimestamp) (h : 0 ≤ t.s) : 0 ≤ parse_str_ts t := by
  unfold parse_str_ts
  have h1 : (0 : ℚ) ≤ (t.h : ℚ) * 3600 := by positivity
  have h2 : (0 : ℚ) ≤ (t.m : ℚ) * 60 := by positivity
  linarith

/-- A list whose `getLast?` is `some a` is its own `dropLast` plus `[a]`. -/
theorem getLast?_decomp {α : Type _} {l : List α} {a : α} (h : l.getLast? = some a) :
    l.dropLast ++ [a] = l := by
  cases l.eq_nil_or_concat with
  | inl h0 =>
      subst h0
      cases h
  | inr h0 =>
      obtain ⟨t, b, rfl⟩ := h0
      rw [List.concat_eq_append] at h ⊢
      rw [List.getLast?_concat] at h
      injection h with h
      subst h
      rw [List.dropLast_concat]

/-- Exhaustive description of the three successful outcomes of the period
transition. -/
theorem updatePeriods_cases {ps : List Period} {pid : Nat} {ts : ℚ}
    {pr : List Period × Period} (h : updatePeriods ps pid ts = .ok pr) :
    (ps = [] ∧
      pr.1 = ps ++ [{ id := pid, start_timestamp := ts, end_timestamp := none }] ∧
      pr.2 = { id := pid, start_timestamp := ts, end_timestamp := none }) ∨
    (∃ period prev_end, ps.getLast? = some period ∧ period.id ≠ pid ∧
      period.end_timestamp = some prev_end ∧
      pr.1 = ps ++ [{ id := pid, start_timestamp := ts + prev_end + 1/1000,
                      end_timestamp := none }] ∧
      pr.2 = { id := pid, start_timestamp := ts + prev_end + 1/1000,
               end_timestamp := none }) ∨
    (∃ period, ps.getLast? = some period ∧ period.id = pid ∧
      pr.1 = ps.dropLast ++
        [{ period with end_timestamp := some (period.start_timestamp + ts) }] ∧
      pr.2 = { period with end_timestamp := some (period.start_timestamp + ts) }) := by
  unfold updatePeriods at h
  split at h
  · injection h with h
    exact Or.inl ⟨List.getLast?_eq_none_iff.mp (by assumption),
      by rw [← h], by rw [← h]⟩
  · rename_i period hlast
    split_ifs at h with hid
    · split at h
      · exact Except.noConfusion h
      · rename_i prev_end hend
        injection h with h
        exact Or.inr (Or.inl ⟨period, prev_end, hlast, hid, hend,
          by rw [← h], by rw [← h]⟩)
    · injection h with h
      exact Or.inr (Or.inr ⟨period, hlast, Classical.not_not.mp hid,
        by rw [← h], by rw [← h]⟩)

/-- The period transition fails with the `float + None` type error exactly
as in the source when the open period is unclosed and the period number
changes. -/
theorem updatePeriods_typeError {ps : List Period} {pid : Nat} {ts : ℚ} {period : Period}
    (hlast : ps.getLast? = some period) (hend : period.end_timestamp = none)
    (hid : period.id ≠ pid) :
    updatePeriods ps pid ts = .error .typeError := by
  unfold updatePeriods
  simp only [hlast, hend, if_pos hid]

/-- Inversion of the main loop body: the periods of the next state are
exactly what the period transition produced. -/
theorem processRawEvent_ok_updatePeriods {ctx : Ctx} {st : LoopState}
    {raw_event : RawEvent} {st' : LoopState}
    (h : processRawEvent ctx st raw_event = .ok st') :
    ∃ pr, updatePeriods st.periods raw_event.period (parse_str_ts raw_event.timestamp) =
        .ok pr ∧ st'.periods = pr.1 := by
  unfold processRawEvent at h
  obtain ⟨team, hteam, h⟩ := except_bind_ok h
  obtain ⟨possession_team, hpt, h⟩ := except_bind_ok h
  obtain ⟨pr, hpr, h⟩ := except_bind_ok h
  obtain ⟨player, hplayer, h⟩ := except_bind_ok h
  obtain ⟨coords, hcoords, h⟩ := except_bind_ok h
  obtain ⟨new_events, hnev, h⟩ := except_bind_ok h
  obtain ⟨final, hfinal, h⟩ := except_bind_ok h
  injection h with h
  exact ⟨pr, hpr, by rw [← h]⟩

/-- The link the loop maintains between consecutive accumulated periods:
the earlier one is closed and the later one starts at least one millisecond
after that end. -/
def periodLink (p q : Period) : Prop :=
  ∃ e, p.end_timestamp = some e ∧ e + 1/1000 ≤ q.start_timestamp

/-- A closed period ends at or after its start. -/
def periodSelfOk (p : Period) : Prop :=
  ∀ e, p.end_timestamp = some e → p.start_timestamp ≤ e

/-- The loop invariant on the accumulated period list. -/
def periodsInv (ps : List Period) : Prop :=
  List.Chain' periodLink ps ∧ ∀ p ∈ ps, periodSelfOk p

/-- The period transition preserves the period invariant when the incoming
elapsed timestamp is non-negative. -/
theorem updatePeriods_periodsInv {ps : List Period} {pid : Nat} {ts : ℚ}
    (hts : 0 ≤ ts) (hinv : periodsInv ps) {pr : List Period × Period}
    (h : updatePeriods ps pid ts = .ok pr) : periodsInv pr.1 := by
  rcases updatePeriods_cases h with ⟨hnil, hpr, _⟩ |
    ⟨period, prev_end, hlast, hid, hend, hpr, _⟩ | ⟨period, hlast, hid, hpr, _⟩
  · subst hnil
    rw [hpr]
    exact ⟨List.chain'_singleton _, by
      intro p hp e he
      rw [List.nil_append, List.mem_singleton] at hp
      subst hp
      exact Option.noConfusion he⟩
  · rw [hpr]
    constructor
    · rw [List.chain'_append]
      refine ⟨hinv.1, List.chain'_singleton _, ?_⟩
      intro x hx y hy
      rw [hlast, Option.mem_def, Option.some.injEq] at hx
      simp only [List.head?_cons, Option.mem_def, Option.some.injEq] at hy
      subst hx
      subst hy
      exact ⟨prev_end, hend, by linarith⟩
    · intro p hp e he
      rw [List.mem_append] at hp
      cases hp with
      | inl hp => exact hinv.2 p hp e he
      | inr hp =>
          rw [List.mem_singleton] at hp
          subst hp
          exact Option.noConfusion he
  · rw [hpr]
    have hdecomp := getLast?_decomp hlast
    have hchain : List.Chain' periodLink (ps.dropLast ++ [period]) := by
      rw [hdecomp]; exact hinv.1
    rw [List.chain'_append] at hchain
    constructor
    · rw [List.chain'_append]
      refine ⟨hchain.1, List.chain'_singleton _, ?_⟩
      intro x hx y hy
      simp only [List.head?_cons, Option.mem_def, Option.some.injEq] at hy
      subst hy
      obtain ⟨e, he, hle⟩ := hchain.2.2 x hx period (by simp)
      exact ⟨e, he, hle⟩
    · intro p hp e he
      rw [List.mem_append] at hp
      cases hp with
      | inl hp =>
          exact hinv.2 p (by rw [← hdecomp]; exact List.mem_append_left _ hp) e he
      | inr hp =>
          rw [List.mem_singleton] at hp
          subst hp
          simp only [Option.some.injEq] at he
          subst he
          exact le_add_of_nonneg_right hts

/-- The period transition only appends after `dropLast`: every period other
than the open one survives unchanged at its position. -/
theorem updatePeriods_dropLast {ps : List Period} {pid : Nat} {ts : ℚ}
    {pr : List Period × Period} (h : updatePeriods ps pid ts = .ok pr) :
    ∃ rest, pr.1 = ps.dropLast ++ rest := by
  rcases updatePeriods_cases h with ⟨hnil, hpr, _⟩ |
    ⟨period, prev_end, hlast, hid, hend, hpr, _⟩ | ⟨period, hlast, hid, hpr, _⟩
  · subst hnil
    rw [hpr]
    exact ⟨[{ id := pid, start_timestamp := ts, end_timestamp := none }], rfl⟩
  · refine ⟨period ::
      [{ id := pid, start_timestamp := ts + prev_end + 1/1000, end_timestamp := none }], ?_⟩
    rw [hpr]
    conv_lhs => rw [← getLast?_decomp hlast]
    rw [List.append_assoc]
    rfl
  · rw [hpr]
    exact ⟨[{ period with end_timestamp := some (period.start_timestamp + ts) }], rfl⟩

/-- The period transition keeps adjacent accumulated periods' ids
distinct. -/
theorem updatePeriods_adjacent {ps : List Period} {pid : Nat} {ts : ℚ}
    (hadj : List.Chain' (fun p q => p.id ≠ q.id) ps) {pr : List Period × Period}
    (h : updatePeriods ps pid ts = .ok pr) :
    List.Chain' (fun p q => p.id ≠ q.id) pr.1 := by
  rcases updatePeriods_cases h with ⟨hnil, hpr, _⟩ |
    ⟨period, prev_end, hlast, hid, hend, hpr, _⟩ | ⟨period, hlast, hid, hpr, _⟩
  · subst hnil
    rw [hpr, List.nil_append]
    exact List.chain'_singleton _
  · rw [hpr, List.chain'_append]
    refine ⟨hadj, List.chain'_singleton _, ?_⟩
    intro x hx y hy
    rw [hlast, Option.mem_def, Option.some.injEq] at hx
    simp only [List.head?_cons, Option.mem_def, Option.some.injEq] at hy
    subst hx
    subst hy
    exact hid
  · rw [hpr]
    have hdecomp := getLast?_decomp hlast
    have hchain : List.Chain' (fun p q => p.id ≠ q.id) (ps.dropLast ++ [period]) := by
      rw [hdecomp]; exact hadj
    rw [List.chain'_append] at hchain ⊢
    refine ⟨hchain.1, List.chain'_singleton _, ?_⟩
    intro x hx y hy
    simp only [List.head?_cons, Option.mem_def, Option.some.injEq] at hy
    subst hy
    exact hchain.2.2 x hx period (by simp)

/-! ## C10: an unclosed period followed by a different period number -/

/-- C10: (i) when the acting and possession teams resolve but the currently
open period has a null end timestamp and the incoming raw event carries a
different period number, the loop iteration fails with the `float + None`
type error, so the whole call fails instead of producing a dataset; (ii) a
successful period transition yields an open period with a set end timestamp
only when the previous open period carried the same period number, and then
the end is that period's start plus the event's elapsed time. -/
theorem open_period_null_end_type_error :
    (∀ (ctx : Ctx) (st : LoopState) (raw_event : RawEvent)
        (team possession_team : Team) (period : Period),
        resolveTeam ctx raw_event.team_id = .ok team →
        resolvePossessionTeam ctx raw_event.possession_team_id = .ok possession_team →
        st.periods.getLast? = some period →
        period.end_timestamp = none →
        period.id ≠ raw_event.period →
        processRawEvent ctx st raw_event = .error .typeError) ∧
    (∀ (ps : List Period) (pid : Nat) (ts : ℚ) (pr : List Period × Period) (e : ℚ),
        updatePeriods ps pid ts = .ok pr → pr.2.end_timestamp = some e →
        ∃ period, ps.getLast? = some period ∧ period.id = pid ∧
          e = period.start_timestamp + ts) := by
  constructor
  · intro ctx st raw_event team possession_team period hrt hrp hlast hend hid
    unfold processRawEvent
    simp only [hrt, hrp, except_ok_bind,
      updatePeriods_typeError hlast hend hid, except_error_bind]
  · intro ps pid ts pr e h hend
    rcases updatePeriods_cases h with ⟨hnil, _, hpr2⟩ |
      ⟨period, prev_end, hlast, hid, hpe, _, hpr2⟩ | ⟨period, hlast, hid, _, hpr2⟩
    · rw [hpr2] at hend
      exact Option.noConfusion hend
    · rw [hpr2] at hend
      exact Option.noConfusion hend
    · rw [hpr2] at hend
      have h0 : some (period.start_timestamp + ts) = some e := hend
      injection h0 with h0
      exact ⟨period, hlast, hid, h0.symm⟩

/-- A context as `deserialize` builds it for the two sample lineups. -/
def ctx0 : Ctx :=
  { keep := keepNone, home_team_id := 1, away_team_id := 2,
    home_team := buildTeam homeLineup0 Ground.HOME [],
    away_team := buildTeam awayLineup0 Ground.AWAY [],
    shot_fidelity_version := 1, xy_fidelity_version := 1 }

/-- A loop state with one open (unclosed) period. -/
def st10 : LoopState :=
  { periods := [{ id := 1, start_timestamp := 0, end_timestamp := none }], events := [] }

/-- Witness for C10: a concrete second event with period number 2 while
period 1 is open and unclosed makes the iteration, and a whole two-event
deserialization, fail with the type error; and a concrete same-period
transition sets the end timestamp from the start plus the elapsed time. -/
theorem open_period_null_end_type_error_witness :
    processRawEvent ctx0 st10 (sampleRaw 3 2 0) = .error .typeError ∧
    deserialize keepAll homeLineup0 awayLineup0 [sampleRaw 3 1 0, sampleRaw 3 2 1] =
      .error .typeError ∧
    (∃ period, ([{ id := 1, start_timestamp := 0, end_timestamp := some 5 }] :
        List Period).getLast? = some period ∧ period.id = 1 ∧
      (0 : ℚ) + 7 = period.start_timestamp + 7) :=
  ⟨open_period_null_end_type_error.1 ctx0 st10 (sampleRaw 3 2 0)
      (buildTeam homeLineup0 Ground.HOME []) (buildTeam homeLineup0 Ground.HOME [])
      { id := 1, start_timestamp := 0, end_timestamp := none } rfl rfl rfl rfl
      (by decide),
   by rfl,
   open_period_null_end_type_error.2
      [{ id := 1, start_timestamp := 0, end_timestamp := some 5 }] 1 7
      ([{ id := 1, start_timestamp := 0, end_timestamp := some ((0 : ℚ) + 7) }],
        { id := 1, start_timestamp := 0, end_timestamp := some ((0 : ℚ) + 7) })
      ((0 : ℚ) + 7) (by rfl) rfl⟩

/-! ## C3: successive periods never overlap -/

/-- C3: in any successful deserialization of raw events with well-formed
timestamps, whenever two consecutive accumulated periods both have an end
timestamp, the later one's end is at least the earlier one's end plus the
strictly positive epsilon of one millisecond. -/
theorem successive_periods_no_overlap
    (keep : Event → Bool) (home_lineup away_lineup : Lineup)
    (raw_events : List RawEvent)
    (hts : ∀ r ∈ raw_events, 0 ≤ r.timestamp.s)
    (ps : List Period) (evs : List Event)
    (hok : deserialize keep home_lineup away_lineup raw_events = .ok (ps, evs))
    (i : Nat) (hi : i + 1 < ps.length) (eN eN1 : ℚ)
    (hN : (ps.get ⟨i, Nat.lt_of_succ_lt hi⟩).end_timestamp = some eN)
    (hN1 : (ps.get ⟨i + 1, hi⟩).end_timestamp = some eN1) :
    eN + 1/1000 ≤ eN1 := by
  unfold deserialize at hok
  obtain ⟨fidelity, hfid, hok⟩ := except_bind_ok hok
  obtain ⟨starting_player_ids, hsids, hok⟩ := except_bind_ok hok
  obtain ⟨final, hfinal, hok⟩ := except_bind_ok hok
  injection hok with hok
  rw [Prod.mk.injEq] at hok
  obtain ⟨hps, hevs⟩ := hok
  subst hps
  have hinv : periodsInv final.periods := by
    refine foldlM_except_inv _ (fun st => periodsInv st.periods)
      (fun r => 0 ≤ r.timestamp.s) raw_events hts ?_ { periods := [], events := [] }
      ⟨List.chain'_nil, by intro p hp; cases hp⟩ final hfinal
    intro s a s' hq hP hstep
    obtain ⟨pr, hpr, heq⟩ := processRawEvent_ok_updatePeriods hstep
    rw [heq]
    exact updatePeriods_periodsInv (parse_str_ts_nonneg a.timestamp hq) hP hpr
  have hchain := hinv.1
  rw [List.chain'_iff_get] at hchain
  have hlink := hchain i (by omega)
  obtain ⟨e, he, hle⟩ := hlink
  have he' : (final.periods.get ⟨i, Nat.lt_of_succ_lt hi⟩).end_timestamp = some e := he
  rw [hN] at he'
  injection he' with he'
  subst he'
  have hself := hinv.2 (final.periods.get ⟨i + 1, hi⟩) (final.periods.get_mem _ _) eN1 hN1
  have hle' : eN + 1/1000 ≤ (final.periods.get ⟨i + 1, hi⟩).start_timestamp := hle
  linarith

/-- Four raw events spanning two periods, each period closed by its second
event. -/
def c3Raw : List RawEvent :=
  [sampleRaw 1 1 0, sampleRaw 1 1 10, sampleRaw 1 2 1, sampleRaw 1 2 2]

/-- The periods `deserialize` accumulates for `c3Raw`. -/
def c3Periods : List Period :=
  [{ id := 1, start_timestamp := 0, end_timestamp := some 10 },
   { id := 2, start_timestamp := 11 + 1/1000, end_timestamp := some (13 + 1/1000) }]

/-- Concrete evaluation of `deserialize` on `c3Raw`. -/
theorem c3_deserialize_eval :
    deserialize keepNone homeLineup0 awayLineup0 c3Raw = .ok (c3Periods, []) := by
  norm_num [deserialize, _determine_xy_fidelity_versions, fidelityScanStep,
    collectStartingIds, buildTeam, processRawEvent, resolveTeam, resolvePossessionTeam,
    resolvePlayer, resolveCoordinates, updatePeriods, parse_str_ts, buildNewEvents,
    processNewEvents, processOutStep_generic, sampleRaw, homeLineup0, awayLineup0,
    keepNone, c3Raw, c3Periods, except_ok_bind, except_pure_eq, List.foldlM_cons,
    List.foldlM_nil, SB_EVENT_TYPE_STARTING_XI, SB_EVENT_TYPE_PASS, SB_EVENT_TYPE_SHOT,
    SB_EVENT_TYPE_DRIBBLE, SB_EVENT_TYPE_CARRY, SB_EVENT_TYPE_SUBSTITUTION,
    SB_EVENT_TYPE_BAD_BEHAVIOUR, SB_EVENT_TYPE_FOUL_COMMITTED, SB_EVENT_TYPE_PLAYER_ON,
    SB_EVENT_TYPE_PLAYER_OFF, SB_EVENT_TYPE_RECOVERY]

/-- Witness for C3 at the concrete input: period 1 ends at 10, period 2
ends at 13.001, and the theorem yields 10 + 1/1000 ≤ 13 + 1/1000. -/
theorem successive_periods_no_overlap_witness :
    (10 : ℚ) + 1/1000 ≤ 13 + 1/1000 :=
  successive_periods_no_overlap keepNone homeLineup0 awayLineup0 c3Raw
    (by
      intro r hr
      simp only [c3Raw, List.mem_cons, List.not_mem_nil, or_false] at hr
      rcases hr with rfl | rfl | rfl | rfl <;> norm_num [sampleRaw])
    c3Periods [] c3_deserialize_eval 0 (by norm_num [c3Periods]) 10 (13 + 1/1000) rfl rfl

/-! ## C4: period id ordering and end-timestamp freezing -/

/-- Five raw events whose period numbers return to a previous value. -/
def c4Raw : List RawEvent :=
  c3Raw ++ [sampleRaw 1 1 3]

/-- C4 (counterexample): raw events whose period numbers go 1, 1, 2, 2, 1
produce an accumulated period list with ids [1, 2, 1], which is not
strictly increasing — the loop only compares against the currently open
period's id. -/
theorem period_ids_not_increasing_cex :
    (deserialize keepNone homeLineup0 awayLineup0 c4Raw).map
        (fun r => r.1.map Period.id) = .ok [1, 2, 1] ∧
    ¬ List.Chain' (fun a b : Nat => a < b) [1, 2, 1] := by
  constructor
  · rfl
  · intro h
    rw [List.chain'_cons, List.chain'_cons] at h
    omega

/-- C4 (amended): the accumulated period list has pairwise distinct
adjacent ids (each newly opened period's id differs from the immediately
preceding period's id), and one loop iteration only ever extends the
period list after `dropLast` — so a period's end timestamp is never
modified again once a subsequent period has been opened. -/
theorem period_ids_adjacent_distinct_end_frozen
    (keep : Event → Bool) (home_lineup away_lineup : Lineup)
    (raw_events : List RawEvent) (ps : List Period) (evs : List Event)
    (hok : deserialize keep home_lineup away_lineup raw_events = .ok (ps, evs)) :
    List.Chain' (fun p q => p.id ≠ q.id) ps ∧
    (∀ (ctx : Ctx) (st : LoopState) (raw_event : RawEvent) (st' : LoopState),
        processRawEvent ctx st raw_event = .ok st' →
        ∃ rest, st'.periods = st.periods.dropLast ++ rest) := by
  constructor
  · unfold deserialize at hok
    obtain ⟨fidelity, hfid, hok⟩ := except_bind_ok hok
    obtain ⟨starting_player_ids, hsids, hok⟩ := except_bind_ok hok
    obtain ⟨final, hfinal, hok⟩ := except_bind_ok hok
    injection hok with hok
    rw [Prod.mk.injEq] at hok
    obtain ⟨hps, hevs⟩ := hok
    subst hps
    refine foldlM_except_inv _
      (fun st => List.Chain' (fun p q => p.id ≠ q.id) st.periods)
      (fun _ => True) raw_events (fun _ _ => trivial) ?_ { periods := [], events := [] }
      List.chain'_nil final hfinal
    intro s a s' _ hP hstep
    obtain ⟨pr, hpr, heq⟩ := processRawEvent_ok_updatePeriods hstep
    rw [heq]
    exact updatePeriods_adjacent hP hpr
  · intro ctx st raw_event st' hstep
    obtain ⟨pr, hpr, heq⟩ := processRawEvent_ok_updatePeriods hstep
    rw [heq]
    exact updatePeriods_dropLast hpr

/-- The state one loop iteration produces from the empty state and a
minimal unknown-category raw event. -/
def st1 : LoopState :=
  { periods := [{ id := 1, start_timestamp := parse_str_ts { h := 0, m := 0, s := 0 },
                  end_timestamp := none }], events := [] }

/-- Witness for C4 at concrete inputs: the two-period run has adjacent
distinct ids, and a concrete iteration extends `[]` after `dropLast`. -/
theorem period_ids_adjacent_distinct_end_frozen_witness :
    List.Chain' (fun p q : Period => p.id ≠ q.id) c3Periods ∧
    (∃ rest, st1.periods = (LoopState.mk [] []).periods.dropLast ++ rest) :=
  ⟨(period_ids_adjacent_distinct_end_frozen keepNone homeLineup0 awayLineup0 c3Raw
      c3Periods [] c3_deserialize_eval).1,
   (period_ids_adjacent_distinct_end_frozen keepNone homeLineup0 awayLineup0 c3Raw
      c3Periods [] c3_deserialize_eval).2 ctx0 { periods := [], events := [] }
      (sampleRaw 3 1 0) st1 (by rfl)⟩

/-- A shot raw event whose location has a fractional x component. -/
def shotHighRaw : RawEvent :=
  { sampleRaw SB_EVENT_TYPE_SHOT 1 0 with location := some [mkRat 1 2, 3] }

/-- Witness for C5 at a concrete input: one high-fidelity shot event gives
the detector result (2, 1), and the characterisation instantiates. -/
theorem fidelity_detector_characterisation_witness :
    _determine_xy_fidelity_versions [shotHighRaw] = .ok (2, 1) ∧
    (∃ shot_fidelity_version xy_fidelity_version,
      _determine_xy_fidelity_versions [shotHighRaw] =
        .ok (shot_fidelity_version, xy_fidelity_version) ∧
      (shot_fidelity_version = 2 ↔ ∃ e ∈ [shotHighRaw], shotHighEvidence e = true) ∧
      (shot_fidelity_version = 1 ↔ ¬ ∃ e ∈ [shotHighRaw], shotHighEvidence e = true) ∧
      (xy_fidelity_version = 2 ↔ ∃ e ∈ [shotHighRaw], moveHighEvidence e = true) ∧
      (xy_fidelity_version = 1 ↔ ¬ ∃ e ∈ [shotHighRaw], moveHighEvidence e = true)) :=
  ⟨by decide,
   fidelity_detector_characterisation [shotHighRaw]
     (by
        intro e he loc hloc
        rw [List.mem_singleton] at he
        subst he
        rw [show shotHighRaw.location = some [mkRat 1 2, 3] from rfl] at hloc
        cases hloc
        decide)⟩

/-! ## C9: the injury-clearance pass outcome behaves like the out code -/

/-- Replacing outcome code 74 (injury clearance) by 75 (out) in a pass
sub-object does not change `_parse_pass`: both map to `PassResult.OUT` with
no receiver. -/
theorem parse_pass_74_75 (pd : PassDict) (team : Team) (fv : Nat) (o : OutcomeRef)
    (ho : pd.outcome = some o) (hid : o.id = SB_PASS_OUTCOME_INJURY_CLEARANCE) :
    _parse_pass { pd with outcome := some { o with id := SB_PASS_OUTCOME_OUT } } team fv =
      _parse_pass pd team fv := by
  unfold _parse_pass _parse_pass_result
  simp only [ho, hid]
  norm_num [SB_PASS_OUTCOME_OUT, SB_PASS_OUTCOME_INJURY_CLEARANCE,
    SB_PASS_OUTCOME_INCOMPLETE, SB_PASS_OUTCOME_OFFSIDE, SB_PASS_OUTCOME_UNKNOWN]

/-- Replacing outcome code 74 by 75 in a pass raw event does not change the
built event list. -/
theorem buildNewEvents_74_75 (raw_event : RawEvent) (pd : PassDict) (o : OutcomeRef)
    (hpd : raw_event.pass_dict = some pd) (ho : pd.outcome = some o)
    (hid : o.id = SB_PASS_OUTCOME_INJURY_CLEARANCE)
    (team : Team) (gk : GenericEventKwargs) (ts : ℚ) (fv : Nat) :
    buildNewEvents
        { raw_event with
          pass_dict := some { pd with outcome := some { o with id := SB_PASS_OUTCOME_OUT } } }
        team gk ts fv =
      buildNewEvents raw_event team gk ts fv := by
  by_cases ht : raw_event.type_id = SB_EVENT_TYPE_PASS
  · unfold buildNewEvents
    dsimp only
    rw [hpd, if_pos ht, if_pos ht, parse_pass_74_75 pd team fv o ho hid]
  · unfold buildNewEvents
    dsimp only
    rw [if_neg ht, if_neg ht]

/-- C9: `_parse_pass` maps the injury-clearance outcome code 74 to
`PassResult.OUT`, and a raw pass event carrying code 74 is processed by the
loop identically to the same event carrying the explicit out-of-bounds code
75 — including the synthetic BallOut emission. -/
theorem injury_clearance_maps_to_out :
    (∀ (pd : PassDict) (team : Team) (fv : Nat) (o : OutcomeRef) (pk : PassKwargs),
        pd.outcome = some o → o.id = SB_PASS_OUTCOME_INJURY_CLEARANCE →
        _parse_pass pd team fv = .ok pk → pk.result = some PassResult.OUT) ∧
    (∀ (ctx : Ctx) (st : LoopState) (raw_event : RawEvent) (pd : PassDict) (o : OutcomeRef),
        raw_event.pass_dict = some pd → pd.outcome = some o →
        o.id = SB_PASS_OUTCOME_INJURY_CLEARANCE →
        processRawEvent ctx st
            { raw_event with
              pass_dict := some
                { pd with outcome := some { o with id := SB_PASS_OUTCOME_OUT } } } =
          processRawEvent ctx st raw_event) := by
  constructor
  · intro pd team fv o pk ho hid h
    unfold _parse_pass at h
    obtain ⟨rp, hrp, h⟩ := except_bind_ok h
    obtain ⟨rc, hrc, h⟩ := except_bind_ok h
    obtain ⟨q, hq, h⟩ := except_bind_ok h
    injection h with h
    subst h
    show rp.1 = _
    unfold _parse_pass_result at hrp
    rw [ho] at hrp
    simp only [hid] at hrp
    norm_num [SB_PASS_OUTCOME_OUT, SB_PASS_OUTCOME_INJURY_CLEARANCE,
      SB_PASS_OUTCOME_INCOMPLETE, SB_PASS_OUTCOME_OFFSIDE] at hrp
    rw [← hrp]
  · intro ctx st raw_event pd o hpd ho hid
    unfold processRawEvent
    dsimp only
    simp only [buildNewEvents_74_75 raw_event pd o hpd ho hid]

/-- A raw pass event with the injury-clearance outcome. -/
def pass74Raw : RawEvent :=
  { sampleRaw SB_EVENT_TYPE_PASS 1 5 with
    duration := some 1,
    pass_dict := some { outcome := some { id := 74, name := "Injury Clearance" },
                        recipient := none, end_location := [3, 4],
                        type_id := none, body_part_id := none } }

/-- The same raw pass event with the explicit out-of-bounds outcome. -/
def pass75Raw : RawEvent :=
  { sampleRaw SB_EVENT_TYPE_PASS 1 5 with
    duration := some 1,
    pass_dict := some { outcome := some { id := 75, name := "Injury Clearance" },
                        recipient := none, end_location := [3, 4],
                        type_id := none, body_part_id := none } }

/-- Witness for C9 at concrete inputs: a code-74 pass is processed exactly
like the code-75 variant, and deserializing it emits a pass followed by one
BallOut whose ball state is dead. -/
theorem injury_clearance_maps_to_out_witness :
    processRawEvent ctx0 { periods := [], events := [] } pass75Raw =
      processRawEvent ctx0 { periods := [], events := [] } pass74Raw ∧
    (deserialize keepAll homeLineup0 awayLineup0 [pass74Raw]).map
        (fun r => r.2.map Event.kindName) = .ok ["pass", "ball_out"] ∧
    (deserialize keepAll homeLineup0 awayLineup0 [pass74Raw]).map
        (fun r => r.2.map (fun e => (Event.kwargs e).ball_state)) =
      .ok [BallState.ALIVE, BallState.DEAD] :=
  ⟨injury_clearance_maps_to_out.2 ctx0 { periods := [], events := [] } pass74Raw
      { outcome := some { id := 74, name := "Injury Clearance" }, recipient := none,
        end_location := [3, 4], type_id := none, body_part_id := none }
      { id := 74, name := "Injury Clearance" } rfl rfl rfl,
   by rfl, by rfl⟩

end StatsBomb
